import Mathlib

/-!
Verification of the openaix client resolver.

The file embeds `ClientFromEnv` from src/client.go as a pure function of an
explicit environment, together with the small fragment of the wrapped
go-openai library that the resolver invokes, and proves the specified
properties of the resolver.
-/

/-- A process environment: maps a variable name to its value, with `none`
meaning the variable is unset. -/
def Env : Type := String → Option String

/-- Embedding of Go `os.Getenv`: the value of the variable, or the empty
string when it is unset. -/
def getenv (env : Env) (name : String) : String :=
  (env name).getD ""

/-- Overwrite one variable of an environment (`none` unsets it). -/
def setVar (env : Env) (name : String) (v : Option String) : Env :=
  fun n => if n = name then v else env n

/-- Modelled from the spec: the API-flavor tag of the wrapped HTTP client
library (an external collaborator whose source is not part of this
repository); only the distinction the resolver creates is embedded. -/
inductive APIType where
  | standard
  | azure
  deriving DecidableEq

/-- Modelled from the spec: the configuration object of the wrapped library;
only the fields the resolver reads, writes, or seeds are kept. -/
structure ClientConfig where
  authToken : String
  baseURL : String
  apiType : APIType
  apiVersion : String
  deriving DecidableEq

/-- Modelled from the spec: the Standard default configuration of the wrapped
library, seeded from the credential alone, with no enterprise fields set. -/
def DefaultConfig (authToken : String) : ClientConfig :=
  { authToken := authToken
    baseURL := "https://api.openai.com/v1"
    apiType := APIType.standard
    apiVersion := "" }

/-- Modelled from the spec: the enterprise (Azure) default configuration of
the wrapped library, seeded with library defaults plus the supplied key and
endpoint. -/
def DefaultAzureConfig (apiKey : String) (baseURL : String) : ClientConfig :=
  { authToken := apiKey
    baseURL := baseURL
    apiType := APIType.azure
    apiVersion := "2023-05-15" }

/-- The resolved client handle: opaque to the resolver beyond the
configuration it was constructed from. -/
structure Client where
  config : ClientConfig
  deriving DecidableEq

/-- Modelled from the spec: the wrapped-library constructor taking a full
configuration object. -/
def NewClientWithConfig (config : ClientConfig) : Client :=
  { config := config }

/-- Modelled from the spec: the wrapped-library constructor taking the
credential alone and applying Standard defaults. -/
def NewClient (authToken : String) : Client :=
  NewClientWithConfig (DefaultConfig authToken)

/-- Embedding of `ClientFromEnv` from src/client.go.  The Go result pair
`(*openai.Client, error)` is embedded as `Option Client × Option String`,
with an error represented by its message string.  The Go `switch` on `kind`
with cases `"azure"` and `"openai"` and no default becomes a chain of exact
string comparisons falling through to the error return. -/
def ClientFromEnv (env : Env) : Option Client × Option String :=
  let kind := getenv env "OPENAI_TYPE"
  let endpoint := getenv env "OPENAI_ENDPOINT"
  let version := getenv env "OPENAI_API_VERSION"
  let key := getenv env "OPENAI_API_KEY"
  if kind = "azure" then
    let config := DefaultAzureConfig key endpoint
    let config := { config with apiVersion := version }
    (some (NewClientWithConfig config), none)
  else if kind = "openai" then
    (some (NewClient key), none)
  else
    (none, some ("openaix: unknown OPENAI_TYPE: " ++ kind))

/-- Sample environment: `OPENAI_TYPE=openai`, `OPENAI_API_KEY=sk-test`. -/
def envStandard : Env := fun n =>
  if n = "OPENAI_TYPE" then some "openai"
  else if n = "OPENAI_API_KEY" then some "sk-test"
  else none

/-- Sample environment for the Enterprise scenario of the spec. -/
def envAzure : Env := fun n =>
  if n = "OPENAI_TYPE" then some "azure"
  else if n = "OPENAI_ENDPOINT" then some "https://x.openai.azure.com"
  else if n = "OPENAI_API_VERSION" then some "2024-05-01"
  else if n = "OPENAI_API_KEY" then some "sk-test"
  else none

/-- Sample environment: `OPENAI_TYPE=bogus`, everything else unset. -/
def envBogus : Env := fun n =>
  if n = "OPENAI_TYPE" then some "bogus" else none

/-- Sample environment: `OPENAI_TYPE` unset, `OPENAI_API_KEY=sk-test`. -/
def envUnsetType : Env := fun n =>
  if n = "OPENAI_API_KEY" then some "sk-test" else none

/-- Sample environment: like `envStandard` but with `OPENAI_TYPE=azure` and
no other variable set. -/
def envAzureBare : Env := fun n =>
  if n = "OPENAI_TYPE" then some "azure" else none

/-- Sample environment: `OPENAI_TYPE=Azure` (wrong case), key set. -/
def envCaseVariant : Env := fun n =>
  if n = "OPENAI_TYPE" then some "Azure"
  else if n = "OPENAI_API_KEY" then some "sk-test"
  else none

/-- Sample environment: agrees with `envStandard` on the four resolver
variables but additionally sets the unrelated variable `HOME`. -/
def envStandardPlusHome : Env := fun n =>
  if n = "OPENAI_TYPE" then some "openai"
  else if n = "OPENAI_API_KEY" then some "sk-test"
  else if n = "HOME" then some "/root"
  else none

/-- Branch lemma: when the selector equals `azure`, the resolver returns the
enterprise handle and no error. -/
theorem clientFromEnv_azure_eq (env : Env)
    (h : getenv env "OPENAI_TYPE" = "azure") :
    ClientFromEnv env =
      (some (NewClientWithConfig
        { DefaultAzureConfig (getenv env "OPENAI_API_KEY")
            (getenv env "OPENAI_ENDPOINT") with
          apiVersion := getenv env "OPENAI_API_VERSION" }), none) := by
  unfold ClientFromEnv
  rw [if_pos h]

/-- Branch lemma: when the selector equals `openai`, the resolver returns the
standard handle and no error. -/
theorem clientFromEnv_openai_eq (env : Env)
    (h : getenv env "OPENAI_TYPE" = "openai") :
    ClientFromEnv env = (some (NewClient (getenv env "OPENAI_API_KEY")), none) := by
  have h1 : getenv env "OPENAI_TYPE" ≠ "azure" := by rw [h]; decide
  unfold ClientFromEnv
  rw [if_neg h1, if_pos h]

/-- Branch lemma: when the selector matches neither case, the resolver falls
through to the error return. -/
theorem clientFromEnv_error_eq (env : Env)
    (h1 : getenv env "OPENAI_TYPE" ≠ "azure")
    (h2 : getenv env "OPENAI_TYPE" ≠ "openai") :
    ClientFromEnv env =
      (none, some ("openaix: unknown OPENAI_TYPE: " ++ getenv env "OPENAI_TYPE")) := by
  unfold ClientFromEnv
  rw [if_neg h1, if_neg h2]

/-- Claim C1: the spec claims that an empty or unset OPENAI_TYPE selector
with a non-empty key yields a Standard handle; on the spec scenario
(OPENAI_TYPE unset, OPENAI_API_KEY=sk-test) the resolver instead falls
through the switch and returns no handle together with the unknown-type
error carrying the empty selector. -/
theorem c1_unset_selector_errors :
    ClientFromEnv envUnsetType =
      (none, some "openaix: unknown OPENAI_TYPE: ") := by
  decide

/-- Claim C2: for every environment whose selector lies outside the closed
set, resolution fails: the handle is absent and the error message carries the
offending selector value verbatim. -/
theorem c2_unknown_selector_fails (env : Env)
    (_h0 : getenv env "OPENAI_TYPE" ≠ "")
    (h1 : getenv env "OPENAI_TYPE" ≠ "openai")
    (h2 : getenv env "OPENAI_TYPE" ≠ "azure") :
    ClientFromEnv env =
      (none, some ("openaix: unknown OPENAI_TYPE: " ++ getenv env "OPENAI_TYPE")) :=
  clientFromEnv_error_eq env h2 h1

/-- Witness for claim C2 at the spec scenario OPENAI_TYPE=bogus. -/
theorem c2_unknown_selector_fails_witness :
    getenv envBogus "OPENAI_TYPE" ≠ "" ∧
    getenv envBogus "OPENAI_TYPE" ≠ "openai" ∧
    getenv envBogus "OPENAI_TYPE" ≠ "azure" ∧
    ClientFromEnv envBogus =
      (none, some ("openaix: unknown OPENAI_TYPE: " ++ getenv envBogus "OPENAI_TYPE")) :=
  ⟨by decide, by decide, by decide,
    c2_unknown_selector_fails envBogus (by decide) (by decide) (by decide)⟩

/-- Claim C3: with the azure selector, resolution succeeds with a handle
built from the wrapped-library default enterprise configuration seeded with
the supplied key and endpoint, whose api-version field is then overwritten to
exactly the supplied OPENAI_API_VERSION value. -/
theorem c3_azure_api_version (env : Env)
    (h : getenv env "OPENAI_TYPE" = "azure") :
    ClientFromEnv env =
      (some (NewClientWithConfig
        { DefaultAzureConfig (getenv env "OPENAI_API_KEY")
            (getenv env "OPENAI_ENDPOINT") with
          apiVersion := getenv env "OPENAI_API_VERSION" }), none) ∧
    Option.map ClientConfig.apiVersion
        (Option.map Client.config (ClientFromEnv env).fst) =
      some (getenv env "OPENAI_API_VERSION") := by
  have he := clientFromEnv_azure_eq env h
  exact ⟨he, by rw [he]; rfl⟩

/-- Witness for claim C3 at the enterprise scenario of the spec. -/
theorem c3_azure_api_version_witness :
    getenv envAzure "OPENAI_TYPE" = "azure" ∧
    (ClientFromEnv envAzure =
      (some (NewClientWithConfig
        { DefaultAzureConfig (getenv envAzure "OPENAI_API_KEY")
            (getenv envAzure "OPENAI_ENDPOINT") with
          apiVersion := getenv envAzure "OPENAI_API_VERSION" }), none) ∧
    Option.map ClientConfig.apiVersion
        (Option.map Client.config (ClientFromEnv envAzure).fst) =
      some (getenv envAzure "OPENAI_API_VERSION")) :=
  ⟨by decide, c3_azure_api_version envAzure (by decide)⟩

/-- Claim C4: the resolver validates none of the value variables: with a
recognized explicit selector and empty key, endpoint and api-version, it
still succeeds with a present handle and no error. -/
theorem c4_no_validation (env : Env)
    (hkind : getenv env "OPENAI_TYPE" = "azure" ∨ getenv env "OPENAI_TYPE" = "openai")
    (_hkey : getenv env "OPENAI_API_KEY" = "")
    (_hend : getenv env "OPENAI_ENDPOINT" = "")
    (_hver : getenv env "OPENAI_API_VERSION" = "") :
    (ClientFromEnv env).fst.isSome = true ∧ (ClientFromEnv env).snd = none := by
  rcases hkind with h | h
  · rw [clientFromEnv_azure_eq env h]
    exact ⟨rfl, rfl⟩
  · rw [clientFromEnv_openai_eq env h]
    exact ⟨rfl, rfl⟩

/-- Witness for claim C4: OPENAI_TYPE=azure with every other variable unset
(hence read as empty). -/
theorem c4_no_validation_witness :
    (getenv envAzureBare "OPENAI_TYPE" = "azure" ∨
      getenv envAzureBare "OPENAI_TYPE" = "openai") ∧
    getenv envAzureBare "OPENAI_API_KEY" = "" ∧
    getenv envAzureBare "OPENAI_ENDPOINT" = "" ∧
    getenv envAzureBare "OPENAI_API_VERSION" = "" ∧
    (ClientFromEnv envAzureBare).fst.isSome = true ∧
    (ClientFromEnv envAzureBare).snd = none :=
  ⟨by decide, by decide, by decide, by decide,
    c4_no_validation envAzureBare (by decide) (by decide) (by decide) (by decide)⟩

/-- Claim C5: dispatch is exact, case-sensitive string equality: whenever the
selector differs character-for-character from both azure and openai, neither
construction branch is taken — the handle component is absent and the error
component is present. -/
theorem c5_exact_case_sensitive_match (env : Env)
    (h1 : getenv env "OPENAI_TYPE" ≠ "azure")
    (h2 : getenv env "OPENAI_TYPE" ≠ "openai") :
    (ClientFromEnv env).fst = none ∧ (ClientFromEnv env).snd.isSome = true := by
  rw [clientFromEnv_error_eq env h1 h2]
  exact ⟨rfl, rfl⟩

/-- Witness for claim C5 at the case variant OPENAI_TYPE=Azure. -/
theorem c5_exact_case_sensitive_match_witness :
    getenv envCaseVariant "OPENAI_TYPE" ≠ "azure" ∧
    getenv envCaseVariant "OPENAI_TYPE" ≠ "openai" ∧
    (ClientFromEnv envCaseVariant).fst = none ∧
    (ClientFromEnv envCaseVariant).snd.isSome = true :=
  ⟨by decide, by decide,
    c5_exact_case_sensitive_match envCaseVariant (by decide) (by decide)⟩

/-- Claim C6: the resolver is deterministic and idempotent: two invocations
on identical environment state return equal results, the resolver being a
pure function of the environment with no shared mutable state. -/
theorem c6_deterministic (env₁ env₂ : Env) (h : env₁ = env₂) :
    ClientFromEnv env₁ = ClientFromEnv env₂ := by
  rw [h]

/-- Witness for claim C6: two invocations on the same concrete environment. -/
theorem c6_deterministic_witness :
    envStandard = envStandard ∧
    ClientFromEnv envStandard = ClientFromEnv envStandard :=
  ⟨rfl, c6_deterministic envStandard envStandard rfl⟩

/-- Claim C7: the result depends only on the four named variables: any two
environments that agree on OPENAI_TYPE, OPENAI_ENDPOINT, OPENAI_API_VERSION
and OPENAI_API_KEY, whatever their other variables, resolve to equal
results. -/
theorem c7_depends_only_on_four (env₁ env₂ : Env)
    (ht : env₁ "OPENAI_TYPE" = env₂ "OPENAI_TYPE")
    (he : env₁ "OPENAI_ENDPOINT" = env₂ "OPENAI_ENDPOINT")
    (hv : env₁ "OPENAI_API_VERSION" = env₂ "OPENAI_API_VERSION")
    (hk : env₁ "OPENAI_API_KEY" = env₂ "OPENAI_API_KEY") :
    ClientFromEnv env₁ = ClientFromEnv env₂ := by
  unfold ClientFromEnv getenv
  rw [ht, he, hv, hk]

/-- Witness for claim C7: two environments equal on the four variables but
differing on HOME. -/
theorem c7_depends_only_on_four_witness :
    envStandard "OPENAI_TYPE" = envStandardPlusHome "OPENAI_TYPE" ∧
    envStandard "OPENAI_ENDPOINT" = envStandardPlusHome "OPENAI_ENDPOINT" ∧
    envStandard "OPENAI_API_VERSION" = envStandardPlusHome "OPENAI_API_VERSION" ∧
    envStandard "OPENAI_API_KEY" = envStandardPlusHome "OPENAI_API_KEY" ∧
    ClientFromEnv envStandard = ClientFromEnv envStandardPlusHome :=
  ⟨by decide, by decide, by decide, by decide,
    c7_depends_only_on_four envStandard envStandardPlusHome
      (by decide) (by decide) (by decide) (by decide)⟩

/-- Claim C8: for every environment, exactly one component of the result pair
is present: a construction branch pairs a present handle with an absent
error, and the fallthrough pairs an absent handle with a present error. -/
theorem c8_handle_xor_error (env : Env) :
    ((ClientFromEnv env).fst.isSome = true ∧ (ClientFromEnv env).snd = none) ∨
    ((ClientFromEnv env).fst = none ∧ (ClientFromEnv env).snd.isSome = true) := by
  by_cases h1 : getenv env "OPENAI_TYPE" = "azure"
  · left
    rw [clientFromEnv_azure_eq env h1]
    exact ⟨rfl, rfl⟩
  · by_cases h2 : getenv env "OPENAI_TYPE" = "openai"
    · left
      rw [clientFromEnv_openai_eq env h2]
      exact ⟨rfl, rfl⟩
    · right
      rw [clientFromEnv_error_eq env h1 h2]
      exact ⟨rfl, rfl⟩

/-- Claim C9: whenever the resolver fails, the error message is exactly the
string openaix: unknown OPENAI_TYPE: followed by the verbatim value of the
OPENAI_TYPE variable. -/
theorem c9_error_message_exact (env : Env)
    (h : (ClientFromEnv env).fst = none) :
    (ClientFromEnv env).snd =
      some ("openaix: unknown OPENAI_TYPE: " ++ getenv env "OPENAI_TYPE") := by
  by_cases h1 : getenv env "OPENAI_TYPE" = "azure"
  · rw [clientFromEnv_azure_eq env h1] at h
    exact absurd h (by simp)
  · by_cases h2 : getenv env "OPENAI_TYPE" = "openai"
    · rw [clientFromEnv_openai_eq env h2] at h
      exact absurd h (by simp)
    · rw [clientFromEnv_error_eq env h1 h2]

/-- Witness for claim C9 at OPENAI_TYPE=bogus. -/
theorem c9_error_message_exact_witness :
    (ClientFromEnv envBogus).fst = none ∧
    (ClientFromEnv envBogus).snd =
      some ("openaix: unknown OPENAI_TYPE: " ++ getenv envBogus "OPENAI_TYPE") :=
  ⟨by decide, c9_error_message_exact envBogus (by decide)⟩

/-- Claim C10: the resolver cannot distinguish an unset variable from one set
to the empty string: for each of the four variables it reads, unsetting it
and setting it to the empty string give the same result. -/
theorem c10_unset_eq_empty (env : Env) (name : String)
    (_hfour : name = "OPENAI_TYPE" ∨ name = "OPENAI_ENDPOINT" ∨
      name = "OPENAI_API_VERSION" ∨ name = "OPENAI_API_KEY") :
    ClientFromEnv (setVar env name none) =
      ClientFromEnv (setVar env name (some "")) := by
  have key : ∀ x, getenv (setVar env name none) x =
      getenv (setVar env name (some "")) x := by
    intro x
    unfold getenv setVar
    by_cases hx : x = name <;> simp [hx]
  unfold ClientFromEnv
  simp only [key]

/-- Witness for claim C10: unsetting OPENAI_TYPE versus setting it empty. -/
theorem c10_unset_eq_empty_witness :
    ("OPENAI_TYPE" = "OPENAI_TYPE" ∨ "OPENAI_TYPE" = "OPENAI_ENDPOINT" ∨
      "OPENAI_TYPE" = "OPENAI_API_VERSION" ∨ "OPENAI_TYPE" = "OPENAI_API_KEY") ∧
    ClientFromEnv (setVar envUnsetType "OPENAI_TYPE" none) =
      ClientFromEnv (setVar envUnsetType "OPENAI_TYPE" (some "")) :=
  ⟨Or.inl rfl, c10_unset_eq_empty envUnsetType "OPENAI_TYPE" (Or.inl rfl)⟩
